import Mathlib

/-!
Shallow embedding of the cxxfilt.com front end (src/src/index.ts).

The page state (input/output text areas, status line, submit-button
disabled flag, the DemanglerService error flag) is modelled as an explicit
record AppState.  The external wasm engine is modelled as an opaque
behavior: whether its construction succeeds, and, for a given argument
list, which lines it emits on its two output channels and whether the
callMain invocation rejects.  Each operation of the source is translated
as a function from AppState to AppState that additionally produces a
trace of observable events (status updates, button enable/disable, the
two await suspension points, engine output lines, console logging), so
that ordering and re-entrancy properties can be stated.
-/

namespace CxxfiltCom

/-- Output channel of the engine: normal output (the print callback) or
error output (the printErr callback). -/
inductive Chan
  | normal
  | err
deriving DecidableEq, Repr

/-- One run of the engine's batch entry point (callMain): the lines it
emits, in emission order, each tagged with its channel, and whether the
invocation finally rejects instead of completing normally. -/
structure EngineRun where
  emits : List (Chan × String)
  raises : Bool
deriving DecidableEq, Repr

/-- Behavior of the external wasm engine module: whether the constructor
(the awaited Cxxfilt factory) resolves, and how a batch invocation with a
given argument list behaves.  The engine is opaque; all theorems quantify
over every behavior. -/
structure EngineBehavior where
  constructOk : Bool
  run : List String → EngineRun

/-- Page state: the two text areas, the DemanglerService error flag, the
status line (text and error severity, per StatusManager.setStatus), and
the disabled flag of the demangle button. -/
structure AppState where
  mangledInput : String
  demangledOutput : String
  demangleHadError : Bool
  statusMsg : String
  statusIsError : Bool
  demangleBtnDisabled : Bool
deriving DecidableEq, Repr

/-- Observable events of one operation, in order: status updates, the
await suspension points (engine construction and callMain), button
enable/disable writes, engine output lines, console logging. -/
inductive Event
  | setStatus (msg : String) (isError : Bool)
  | constructSuspend
  | setBtnDisabled (b : Bool)
  | callMainSuspend (args : List String)
  | emitLine (c : Chan) (text : String)
  | consoleError (tag : String)
deriving DecidableEq, Repr

/-- StatusManager.setStatus: replaces the status text and its severity. -/
def setStatus (s : AppState) (message : String) (isError : Bool) : AppState :=
  { s with statusMsg := message, statusIsError := isError }

/-- StatusManager.clearStatus: setStatus with the empty message at normal
severity. -/
def clearStatus (s : AppState) : AppState :=
  setStatus s "" false

/-- JavaScript String.prototype.trim, structurally: drop whitespace
characters from both ends of the character list. -/
def jsTrim (s : String) : String :=
  ⟨((s.data.dropWhile Char.isWhitespace).reverse.dropWhile Char.isWhitespace).reverse⟩

/-- JavaScript String.prototype.split with a one-character separator,
structurally on the character list: every separator occurrence starts a
new segment, so adjacent separators yield empty segments and the result
is never the empty list. -/
def splitCharsOn (sep : Char) : List Char → List (List Char)
  | [] => [[]]
  | c :: rest =>
    match splitCharsOn sep rest with
    | [] => [[c]]
    | l :: ls => if c = sep then [] :: l :: ls else (c :: l) :: ls

/-- JavaScript s.split of a string on the newline character. -/
def splitLines (s : String) : List String :=
  (splitCharsOn '\n' s.data).map fun l => ⟨l⟩

/-- The print callback of the Module configuration appends the text plus
a newline to the output area; the printErr callback does the same and
additionally sets the error flag. -/
def applyEmit (s : AppState) (e : Chan × String) : AppState :=
  match e.1 with
  | Chan.normal => { s with demangledOutput := s.demangledOutput ++ e.2 ++ "\n" }
  | Chan.err =>
      { s with demangledOutput := s.demangledOutput ++ e.2 ++ "\n",
               demangleHadError := true }

/-- Apply a sequence of engine output lines to the state, in order. -/
def applyEmits (s : AppState) (l : List (Chan × String)) : AppState :=
  l.foldl applyEmit s

/-- Whether an emitted line arrived on the error channel. -/
def isErr (e : Chan × String) : Bool :=
  match e.1 with
  | Chan.err => true
  | Chan.normal => false

/-- Concatenation of emitted lines, each followed by a newline, in
emission order: the text the two callbacks deposit in the output area. -/
def outputOf : List (Chan × String) → String
  | [] => ""
  | e :: rest => e.2 ++ "\n" ++ outputOf rest

/-- DemanglerService.initializeWasm: announce initialization, await the
engine constructor; on success announce it and return the engine handle,
on failure log to the console, announce a generic failure at error
severity, and return none. -/
def initializeWasm (eng : EngineBehavior) (s : AppState) :
    AppState × List Event × Option (List String → EngineRun) :=
  if eng.constructOk then
    (setStatus (setStatus s "Initializing wasm module..." false)
        "Wasm module loaded successfully." false,
     [Event.setStatus "Initializing wasm module..." false,
      Event.constructSuspend,
      Event.setStatus "Wasm module loaded successfully." false],
     some eng.run)
  else
    (setStatus (setStatus s "Initializing wasm module..." false)
        "Failed to load wasm module. See console for details." true,
     [Event.setStatus "Initializing wasm module..." false,
      Event.constructSuspend,
      Event.consoleError "Error loading wasm module:",
      Event.setStatus "Failed to load wasm module. See console for details." true],
     none)

/-- DemanglerService.demangle: construct the engine (returning early on
failure), validate the input (returning early when the trimmed input is
empty), reset the output area and the error flag, split the trimmed
input on newlines, announce busy and disable the button, await callMain,
set the final status from the raise/error-flag outcome, and in a finally
block re-enable the button.  The try/catch/finally of the source is
modelled by the total case split on res.raises, so no failure escapes
this function. -/
def demangle (eng : EngineBehavior) (input : String) (s : AppState) :
    AppState × List Event :=
  match initializeWasm eng s with
  | (s1, tr, none) => (s1, tr)
  | (s1, tr, some run) =>
    if jsTrim input = "" then
      (setStatus s1 "Please enter symbols to demangle." true,
       tr ++ [Event.setStatus "Please enter symbols to demangle." true])
    else
      let s2 := { s1 with demangledOutput := "", demangleHadError := false }
      let mangledSymbols := splitLines (jsTrim input)
      let s3 := { setStatus s2 "Demangling..." false with demangleBtnDisabled := true }
      let res := run mangledSymbols
      let s4 := applyEmits s3 res.emits
      let done :=
        if res.raises then
          (setStatus s4 "An error occurred during demangling." true,
           [Event.consoleError "Error during demangling:",
            Event.setStatus "An error occurred during demangling." true])
        else if s4.demangleHadError then
          (setStatus s4 "Demangling completed, but some symbols could not be demangled." true,
           [Event.setStatus "Demangling completed, but some symbols could not be demangled." true])
        else
          (setStatus s4 "Demangling completed successfully." false,
           [Event.setStatus "Demangling completed successfully." false])
      ({ done.1 with demangleBtnDisabled := false },
       tr ++ [Event.setStatus "Demangling..." false,
              Event.setBtnDisabled true,
              Event.callMainSuspend mangledSymbols]
          ++ res.emits.map (fun e => Event.emitLine e.1 e.2)
          ++ done.2
          ++ [Event.setBtnDisabled false])

/-- DemanglerApp.handleClear: empty the input, empty the output, clear
the status.  The error flag and button state are untouched. -/
def handleClear (s : AppState) : AppState :=
  clearStatus { s with mangledInput := "", demangledOutput := "" }

/-- The four example symbols of DemanglerApp.handleLoadExamples, in
source order. -/
def examples : List String :=
  ["_Z3fooi",
   "_ZN3std6vectorIiSaIiEE9push_backERKi",
   "_ZNK6MyBaseD2Ev",
   "_RNvMsr_NtCs3ssYzQotkvD_3std4pathNtB5_7PathBuf3newCs15kBYyAo9fc_7mycrate"]

/-- DemanglerApp.handleLoadExamples: set the input area to the examples
joined by newlines.  No other field is touched and no engine behavior is
consulted (the function does not take one). -/
def handleLoadExamples (s : AppState) : AppState :=
  { s with mangledInput := String.intercalate "\n" examples }

/-- The symbol sequence as the spec describes it: the raw input trimmed
of leading and trailing whitespace and split on line breaks, internal
blank lines kept as empty entries, order preserved, no per-line trimming
or filtering.  Stated separately from demangle so the argument the code
passes to callMain can be compared against the spec wording. -/
def specSymbolSeq (rawInput : String) : List String :=
  splitLines (jsTrim rawInput)

/-- Button-disabled value after a trace has been replayed, starting from
a given value: the last setBtnDisabled write wins. -/
def btnAfter (d : Bool) : List Event → Bool
  | [] => d
  | Event.setBtnDisabled b :: rest => btnAfter b rest
  | _ :: rest => btnAfter d rest

/-- Suspension point kinds: the awaited engine construction, and the
awaited batch invocation with its argument list. -/
inductive Susp
  | construct
  | invoke (args : List String)
deriving DecidableEq, Repr

/-- The suspension points of a trace paired with the button-disabled
value in force while each one is pending.  In the single-threaded event
loop a second user action can only be dispatched at a suspension point,
and a click on the submit button is accepted exactly when the button is
not disabled there. -/
def suspensions (d : Bool) : List Event → List (Susp × Bool)
  | [] => []
  | Event.setBtnDisabled b :: rest => suspensions b rest
  | Event.constructSuspend :: rest => (Susp.construct, d) :: suspensions d rest
  | Event.callMainSuspend args :: rest => (Susp.invoke args, d) :: suspensions d rest
  | Event.setStatus _ _ :: rest => suspensions d rest
  | Event.emitLine _ _ :: rest => suspensions d rest
  | Event.consoleError _ :: rest => suspensions d rest

/-- Freshly loaded page: everything empty, nothing disabled. -/
def s0 : AppState :=
  ⟨"", "", false, "", false, false⟩

/-- Engine whose construction succeeds and whose invocation emits
nothing and completes normally. -/
def engOk : EngineBehavior :=
  ⟨true, fun _ => ⟨[], false⟩⟩

/-- Engine whose construction fails. -/
def engFail : EngineBehavior :=
  ⟨false, fun _ => ⟨[], false⟩⟩

/-- Engine whose invocation rejects after emitting nothing. -/
def engRaise : EngineBehavior :=
  ⟨true, fun _ => ⟨[], true⟩⟩

/-- Engine that emits one normal line and one error line, then completes
normally. -/
def engMixed : EngineBehavior :=
  ⟨true, fun _ => ⟨[(Chan.normal, "foo(int)"), (Chan.err, "bad symbol")], false⟩⟩

/-- Page state with stale output from a previous batch: used to witness
that a fresh batch overwrites it and an early return preserves it. -/
def sStale : AppState :=
  { s0 with demangledOutput := "stale\n", demangleHadError := true }

/-- Final status text of a batch that reached the invocation, as a
function of the run outcome: the catch branch, the partial-failure
branch, or the success branch of demangle. -/
def finalStatusMsg (res : EngineRun) : String :=
  if res.raises then "An error occurred during demangling."
  else if res.emits.any isErr then
    "Demangling completed, but some symbols could not be demangled."
  else "Demangling completed successfully."

/-- Final status severity of a batch that reached the invocation. -/
def finalStatusErr (res : EngineRun) : Bool :=
  if res.raises then true else res.emits.any isErr

/-- Trace events demangle records after the invocation returns and
before the finally block, as a function of the run outcome. -/
def endEvents (res : EngineRun) : List Event :=
  if res.raises then
    [Event.consoleError "Error during demangling:",
     Event.setStatus "An error occurred during demangling." true]
  else if res.emits.any isErr then
    [Event.setStatus "Demangling completed, but some symbols could not be demangled." true]
  else
    [Event.setStatus "Demangling completed successfully." false]

/-- Continuation state of one demangle operation between its suspension
points: not started, awaiting the engine-construction promise, awaiting
the callMain promise (with the argument list already computed), or
concluded.  Two operations can be in flight against the same shared
page state, which is what the re-entrancy claim is about. -/
inductive OpState
  | idle
  | awaitingConstruct (input : String)
  | awaitingCallMain (args : List String)
  | finished
deriving DecidableEq, Repr

/-- A click on the submit button: the browser dispatches the handler
only when the control is not disabled.  When dispatched, it runs the
first synchronous segment of demangle, up to the engine-construction
await of initializeWasm. -/
def submitClick (input : String) (s : AppState) : AppState × OpState :=
  if s.demangleBtnDisabled then (s, OpState.idle)
  else (setStatus s "Initializing wasm module..." false,
        OpState.awaitingConstruct input)

/-- The synchronous segment of demangle that runs when an operation's
pending await resolves, mirroring the source statement for statement.
No segment re-checks the submit control: after the initiating click the
operation proceeds unconditionally.  Resuming a construction await runs
the rest of initializeWasm, the validation, the buffer/flag reset, and
the busy transition up to the callMain await; resuming a callMain await
applies the emitted lines, sets the final status, and runs the finally
block. -/
def opResume (eng : EngineBehavior) (o : OpState) (s : AppState) :
    AppState × OpState :=
  match o with
  | OpState.awaitingConstruct input =>
    if eng.constructOk then
      let s1 := setStatus s "Wasm module loaded successfully." false
      if jsTrim input = "" then
        (setStatus s1 "Please enter symbols to demangle." true, OpState.finished)
      else
        let s2 := { s1 with demangledOutput := "", demangleHadError := false }
        let s3 := { setStatus s2 "Demangling..." false with demangleBtnDisabled := true }
        (s3, OpState.awaitingCallMain (splitLines (jsTrim input)))
    else
      (setStatus s "Failed to load wasm module. See console for details." true,
       OpState.finished)
  | OpState.awaitingCallMain args =>
    let res := eng.run args
    let s4 := applyEmits s res.emits
    let s5 :=
      if res.raises then
        setStatus s4 "An error occurred during demangling." true
      else if s4.demangleHadError then
        setStatus s4 "Demangling completed, but some symbols could not be demangled." true
      else
        setStatus s4 "Demangling completed successfully." false
    ({ s5 with demangleBtnDisabled := false }, OpState.finished)
  | o => (s, o)

/-- Page state whose submit control is disabled (a batch invocation in
flight). -/
def sBusy : AppState :=
  { s0 with demangleBtnDisabled := true }

/-- A concrete legal schedule of the single-threaded event loop: two
submit clicks arrive while the first operation is still awaiting engine
construction, then the two construction promises resolve in order.
Returns the final page state and the two operations' states. -/
def twoClickSchedule : AppState × OpState × OpState :=
  let c1 := submitClick "_Z3fooi" s0
  let c2 := submitClick "_ZNK6MyBaseD2Ev" c1.1
  let r1 := opResume engOk c1.2 c2.1
  let r2 := opResume engOk c2.2 r1.1
  (r2.1, r1.2, r2.2)

theorem string_empty_append (s : String) : ("" : String) ++ s = s := by
  cases s
  rfl

theorem applyEmits_cons (s : AppState) (e : Chan × String) (rest : List (Chan × String)) :
    applyEmits s (e :: rest) = applyEmits (applyEmit s e) rest :=
  rfl

theorem applyEmits_eq (l : List (Chan × String)) (s : AppState) :
    applyEmits s l =
      { s with
          demangledOutput := s.demangledOutput ++ outputOf l,
          demangleHadError := s.demangleHadError || l.any isErr } := by
  induction l generalizing s with
  | nil => simp [applyEmits, outputOf]
  | cons e rest ih =>
    obtain ⟨c, t⟩ := e
    rw [applyEmits_cons, ih]
    cases c <;> simp [applyEmit, outputOf, isErr, String.append_assoc]

theorem suspensions_append (d : Bool) (l1 l2 : List Event) :
    suspensions d (l1 ++ l2) =
      suspensions d l1 ++ suspensions (btnAfter d l1) l2 := by
  induction l1 generalizing d with
  | nil => simp [suspensions, btnAfter]
  | cons e rest ih => cases e <;> simp [suspensions, btnAfter, ih]

theorem suspensions_emitMap (d : Bool) (l : List (Chan × String)) :
    suspensions d (l.map fun e => Event.emitLine e.1 e.2) = [] := by
  induction l with
  | nil => simp [suspensions]
  | cons e rest ih => simp [suspensions, ih]

theorem btnAfter_emitMap (d : Bool) (l : List (Chan × String)) :
    btnAfter d (l.map fun e => Event.emitLine e.1 e.2) = d := by
  induction l with
  | nil => simp [btnAfter]
  | cons e rest ih => simp [btnAfter, ih]

theorem count_btn_emitMap (b : Bool) (l : List (Chan × String)) :
    (l.map fun e => Event.emitLine e.1 e.2).count (Event.setBtnDisabled b) = 0 := by
  induction l with
  | nil => simp
  | cons e rest ih => simp [List.count_cons, ih]

theorem callMain_not_mem_emitMap (args : List String) (l : List (Chan × String)) :
    Event.callMainSuspend args ∉ (l.map fun e => Event.emitLine e.1 e.2) := by
  simp

theorem suspensions_endEvents (d : Bool) (res : EngineRun) :
    suspensions d (endEvents res) = [] := by
  unfold endEvents
  split
  · simp [suspensions]
  · split <;> simp [suspensions]

theorem btnAfter_endEvents (d : Bool) (res : EngineRun) :
    btnAfter d (endEvents res) = d := by
  unfold endEvents
  split
  · simp [btnAfter]
  · split <;> simp [btnAfter]

theorem count_btn_endEvents (b : Bool) (res : EngineRun) :
    (endEvents res).count (Event.setBtnDisabled b) = 0 := by
  unfold endEvents
  split
  · simp [List.count_cons]
  · split <;> simp [List.count_cons]

theorem callMain_not_mem_endEvents (args : List String) (res : EngineRun) :
    Event.callMainSuspend args ∉ endEvents res := by
  unfold endEvents
  split
  · simp
  · split <;> simp

theorem demangle_run (eng : EngineBehavior) (input : String) (s : AppState)
    (h1 : eng.constructOk = true) (h2 : ¬ jsTrim input = "") :
    demangle eng input s =
      ({ mangledInput := s.mangledInput,
         demangledOutput := outputOf (eng.run (specSymbolSeq input)).emits,
         demangleHadError := (eng.run (specSymbolSeq input)).emits.any isErr,
         statusMsg := finalStatusMsg (eng.run (specSymbolSeq input)),
         statusIsError := finalStatusErr (eng.run (specSymbolSeq input)),
         demangleBtnDisabled := false },
       [Event.setStatus "Initializing wasm module..." false,
        Event.constructSuspend,
        Event.setStatus "Wasm module loaded successfully." false,
        Event.setStatus "Demangling..." false,
        Event.setBtnDisabled true,
        Event.callMainSuspend (specSymbolSeq input)]
         ++ (eng.run (specSymbolSeq input)).emits.map (fun e => Event.emitLine e.1 e.2)
         ++ endEvents (eng.run (specSymbolSeq input))
         ++ [Event.setBtnDisabled false]) := by
  cases hr : (eng.run (splitLines (jsTrim input))).raises <;>
    cases he : (eng.run (splitLines (jsTrim input))).emits.any isErr <;>
    simp [demangle, initializeWasm, h1, h2, applyEmits_eq, setStatus, specSymbolSeq,
          finalStatusMsg, finalStatusErr, endEvents, string_empty_append, hr, he]

theorem op_segments_eq_demangle (eng : EngineBehavior) (input : String) (s : AppState)
    (h : s.demangleBtnDisabled = false) :
    (opResume eng (opResume eng (submitClick input s).2 (submitClick input s).1).2
        (opResume eng (submitClick input s).2 (submitClick input s).1).1).1 =
      (demangle eng input s).1 := by
  cases h1 : eng.constructOk
  · simp [submitClick, opResume, demangle, initializeWasm, h, h1, setStatus]
  · by_cases h2 : jsTrim input = ""
    · simp [submitClick, opResume, demangle, initializeWasm, h, h1, h2, setStatus]
    · rw [demangle_run eng input s h1 h2]
      cases hr : (eng.run (splitLines (jsTrim input))).raises <;>
        cases he : (eng.run (splitLines (jsTrim input))).emits.any isErr <;>
        simp [submitClick, opResume, h, h1, h2, applyEmits_eq, setStatus, specSymbolSeq,
              finalStatusMsg, finalStatusErr, string_empty_append, hr, he]

/-- C9: the clear action is idempotent: invoking handleClear twice in a
row yields the same state as invoking it once, namely input empty,
output empty, status cleared to the neutral empty state. -/
theorem handleClear_idempotent (s : AppState) :
    handleClear (handleClear s) = handleClear s ∧
    (handleClear s).mangledInput = "" ∧
    (handleClear s).demangledOutput = "" ∧
    (handleClear s).statusMsg = "" ∧
    (handleClear s).statusIsError = false :=
  ⟨rfl, rfl, rfl, rfl, rfl⟩

/-- C8: handleLoadExamples replaces the input field with exactly the
four literal example lines joined by newlines, in the listed order, and
changes nothing else; it takes no engine behavior, so it cannot touch
the engine. -/
theorem handleLoadExamples_spec (s : AppState) :
    handleLoadExamples s =
      { s with mangledInput :=
          "_Z3fooi\n_ZN3std6vectorIiSaIiEE9push_backERKi\n_ZNK6MyBaseD2Ev\n_RNvMsr_NtCs3ssYzQotkvD_3std4pathNtB5_7PathBuf3newCs15kBYyAo9fc_7mycrate" } := by
  rfl

/-- C7: if engine construction fails, demangle stops without invoking
the engine and without retrying (exactly one construction attempt in the
trace), reports the generic load-failure status at error severity with
the diagnostic going only to the console, and the submit button never
transitions to busy. -/
theorem construct_failure_stops (eng : EngineBehavior) (input : String) (s : AppState)
    (h : eng.constructOk = false) :
    (demangle eng input s).1.statusMsg =
      "Failed to load wasm module. See console for details." ∧
    (demangle eng input s).1.statusIsError = true ∧
    (∀ args, Event.callMainSuspend args ∉ (demangle eng input s).2) ∧
    Event.setBtnDisabled true ∉ (demangle eng input s).2 ∧
    (demangle eng input s).1.demangleBtnDisabled = s.demangleBtnDisabled ∧
    ((demangle eng input s).2).count Event.constructSuspend = 1 ∧
    Event.consoleError "Error loading wasm module:" ∈ (demangle eng input s).2 := by
  simp [demangle, initializeWasm, h, setStatus, List.count_cons]

theorem construct_failure_stops_witness :
    engFail.constructOk = false ∧
    (demangle engFail "_Z3fooi" s0).1.statusMsg =
      "Failed to load wasm module. See console for details." :=
  ⟨rfl, (construct_failure_stops engFail "_Z3fooi" s0 rfl).1⟩

/-- C10: a demangle call that stops before the reset step, because
engine construction failed or because the trimmed input is empty, leaves
the output buffer, the error flag, the input field and the button
exactly as they were; only the status line changes. -/
theorem early_return_frame (eng : EngineBehavior) (input : String) (s : AppState)
    (h : eng.constructOk = false ∨ jsTrim input = "") :
    (demangle eng input s).1.demangledOutput = s.demangledOutput ∧
    (demangle eng input s).1.demangleHadError = s.demangleHadError ∧
    (demangle eng input s).1.mangledInput = s.mangledInput ∧
    (demangle eng input s).1.demangleBtnDisabled = s.demangleBtnDisabled := by
  rcases h with h | h
  · simp [demangle, initializeWasm, h, setStatus]
  · cases hc : eng.constructOk <;> simp [demangle, initializeWasm, hc, h, setStatus]

theorem early_return_frame_witness :
    (engOk.constructOk = false ∨ jsTrim " \n " = "") ∧
    (demangle engOk " \n " sStale).1.demangledOutput = sStale.demangledOutput ∧
    (demangle engOk " \n " sStale).1.demangleHadError = sStale.demangleHadError :=
  ⟨Or.inr (by decide),
   (early_return_frame engOk " \n " sStale (Or.inr (by decide))).1,
   (early_return_frame engOk " \n " sStale (Or.inr (by decide))).2.1⟩

/-- C2 (amended): when engine construction succeeds and the input is
empty or all-whitespace, no batch invocation occurs and the status is
the validation message at error severity. -/
theorem empty_input_validation (eng : EngineBehavior) (input : String) (s : AppState)
    (h1 : eng.constructOk = true) (h2 : jsTrim input = "") :
    (∀ args, Event.callMainSuspend args ∉ (demangle eng input s).2) ∧
    (demangle eng input s).1.statusMsg = "Please enter symbols to demangle." ∧
    (demangle eng input s).1.statusIsError = true := by
  simp [demangle, initializeWasm, h1, h2, setStatus]

/-- C2 counterexample: on empty input with a failing engine
construction, the final status is the load-failure message, the
validation message is never set (the trace is exactly the four
construction events), so the claim as stated fails for this input. -/
theorem empty_input_validation_cex :
    (demangle engFail "" s0).2 =
      [Event.setStatus "Initializing wasm module..." false,
       Event.constructSuspend,
       Event.consoleError "Error loading wasm module:",
       Event.setStatus "Failed to load wasm module. See console for details." true] ∧
    (demangle engFail "" s0).1.statusMsg ≠ "Please enter symbols to demangle." ∧
    (demangle engFail "" s0).1.statusMsg =
      "Failed to load wasm module. See console for details." := by
  decide

theorem empty_input_validation_witness :
    engOk.constructOk = true ∧ jsTrim "  \n  " = "" ∧
    (demangle engOk "  \n  " s0).1.statusMsg = "Please enter symbols to demangle." :=
  ⟨rfl, by decide, (empty_input_validation engOk "  \n  " s0 rfl (by decide)).2.1⟩

/-- C3: every argument list passed to the engine's batch entry point
equals the spec-described symbol sequence: the raw input trimmed of
enclosing whitespace and split on newlines, blank lines kept as empty
entries, order preserved, no per-line trimming or filtering. -/
theorem engine_args_eq_split (eng : EngineBehavior) (input : String) (s : AppState)
    (args : List String)
    (h : Event.callMainSuspend args ∈ (demangle eng input s).2) :
    args = specSymbolSeq input := by
  cases h1 : eng.constructOk
  · simp [demangle, initializeWasm, h1] at h
  · by_cases h2 : jsTrim input = ""
    · simp [demangle, initializeWasm, h1, h2] at h
    · rw [demangle_run eng input s h1 h2] at h
      simpa [callMain_not_mem_emitMap, callMain_not_mem_endEvents] using h

theorem engine_args_eq_split_witness :
    Event.callMainSuspend ["a", "", "b"] ∈ (demangle engOk "  a\n\nb\t" s0).2 ∧
    (["a", "", "b"] : List String) = specSymbolSeq "  a\n\nb\t" :=
  ⟨by decide, engine_args_eq_split engOk "  a\n\nb\t" s0 ["a", "", "b"] (by decide)⟩

/-- C4: on every completion path of a batch that reached the invocation,
including the rejection path, the trace re-enables the button exactly
once (and disabled it exactly once), and the final state has the button
enabled; demangle is a total function over every engine behavior, so no
failure escapes it. -/
theorem busy_released_once (eng : EngineBehavior) (input : String) (s : AppState)
    (h1 : eng.constructOk = true) (h2 : ¬ jsTrim input = "") :
    ((demangle eng input s).2).count (Event.setBtnDisabled false) = 1 ∧
    ((demangle eng input s).2).count (Event.setBtnDisabled true) = 1 ∧
    (demangle eng input s).1.demangleBtnDisabled = false := by
  rw [demangle_run eng input s h1 h2]
  refine ⟨?_, ?_, rfl⟩ <;>
    simp [List.count_append, List.count_cons, count_btn_emitMap, count_btn_endEvents]

theorem busy_released_once_witness :
    engRaise.constructOk = true ∧ ¬ jsTrim "_Z3fooi" = "" ∧
    ((demangle engRaise "_Z3fooi" s0).2).count (Event.setBtnDisabled false) = 1 :=
  ⟨rfl, by decide, (busy_released_once engRaise "_Z3fooi" s0 rfl (by decide)).1⟩

/-- C5: the error flag is monotonic within a batch (any extension of the
emission sequence preserves a set flag), the flag after the batch equals
whether any error-channel line was received (the reset at the start of a
fresh batch makes it independent of earlier batches), and on a normally
completing invocation the final status is the partial-failure message at
error severity when the flag was ever set and the success message at
normal severity otherwise. -/
theorem hadError_monotone_final_status (eng : EngineBehavior) (input : String)
    (s : AppState) (h1 : eng.constructOk = true) (h2 : ¬ jsTrim input = "")
    (h3 : (eng.run (specSymbolSeq input)).raises = false) :
    (∀ (t : AppState) (l1 l2 : List (Chan × String)),
        (applyEmits t l1).demangleHadError = true →
        (applyEmits t (l1 ++ l2)).demangleHadError = true) ∧
    (demangle eng input s).1.demangleHadError =
      (eng.run (specSymbolSeq input)).emits.any isErr ∧
    ((eng.run (specSymbolSeq input)).emits.any isErr = true →
      (demangle eng input s).1.statusMsg =
        "Demangling completed, but some symbols could not be demangled." ∧
      (demangle eng input s).1.statusIsError = true) ∧
    ((eng.run (specSymbolSeq input)).emits.any isErr = false →
      (demangle eng input s).1.statusMsg = "Demangling completed successfully." ∧
      (demangle eng input s).1.statusIsError = false) := by
  refine ⟨?_, ?_, ?_, ?_⟩
  · intro t l1 l2 hm
    simp only [applyEmits_eq, List.any_append] at hm ⊢
    cases ht : t.demangleHadError
    · rw [ht, Bool.false_or] at hm
      rw [Bool.false_or, hm, Bool.true_or]
    · rw [Bool.true_or]
  · rw [demangle_run eng input s h1 h2]
  · intro he
    rw [demangle_run eng input s h1 h2]
    simp [finalStatusMsg, finalStatusErr, h3, he]
  · intro he
    rw [demangle_run eng input s h1 h2]
    simp [finalStatusMsg, finalStatusErr, h3, he]

theorem hadError_monotone_final_status_witness :
    engMixed.constructOk = true ∧ ¬ jsTrim "_Z3fooi" = "" ∧
    (engMixed.run (specSymbolSeq "_Z3fooi")).raises = false ∧
    (engMixed.run (specSymbolSeq "_Z3fooi")).emits.any isErr = true ∧
    (demangle engMixed "_Z3fooi" s0).1.statusMsg =
      "Demangling completed, but some symbols could not be demangled." :=
  ⟨rfl, by decide, rfl, rfl,
   ((hadError_monotone_final_status engMixed "_Z3fooi" s0 rfl (by decide) rfl).2.2.1 rfl).1⟩

/-- C6: after a batch that reached the invocation concludes, the output
buffer is exactly the lines the engine emitted during that batch, each
with a trailing newline, in emission order, independent of whatever the
buffer held before the batch. -/
theorem output_fresh (eng : EngineBehavior) (input : String) (s : AppState)
    (h1 : eng.constructOk = true) (h2 : ¬ jsTrim input = "") :
    (demangle eng input s).1.demangledOutput =
      outputOf (eng.run (specSymbolSeq input)).emits := by
  rw [demangle_run eng input s h1 h2]

theorem output_fresh_witness :
    engMixed.constructOk = true ∧ ¬ jsTrim "_Z3fooi" = "" ∧
    sStale.demangledOutput = "stale\n" ∧
    (demangle engMixed "_Z3fooi" sStale).1.demangledOutput =
      "foo(int)\nbad symbol\n" := by
  refine ⟨rfl, by decide, rfl, ?_⟩
  rw [output_fresh engMixed "_Z3fooi" sStale rfl (by decide)]
  decide

/-- C1 (amended): within one demangle operation the submit control
reports disabled at the batch-invocation suspension point, and a submit
click on a disabled control is not dispatched, so a submit arriving
while the invocation itself is awaited starts nothing.  This is all the
code guarantees: the control is still enabled during the construction
await and an operation never re-checks it after its initiating click,
so a second overlapping operation can begin there, as the
counterexample's schedule shows. -/
theorem invoke_suspension_disabled (eng : EngineBehavior) (input : String)
    (s : AppState) :
    (∀ args d, (Susp.invoke args, d) ∈
        suspensions s.demangleBtnDisabled (demangle eng input s).2 → d = true) ∧
    (∀ inp (t : AppState), t.demangleBtnDisabled = true →
        submitClick inp t = (t, OpState.idle)) := by
  constructor
  · intro args d h
    cases h1 : eng.constructOk
    · simp [demangle, initializeWasm, h1, suspensions] at h
    · by_cases h2 : jsTrim input = ""
      · simp [demangle, initializeWasm, h1, h2, suspensions] at h
      · rw [demangle_run eng input s h1 h2] at h
        simp [suspensions_append, suspensions, btnAfter, suspensions_emitMap,
              btnAfter_emitMap, suspensions_endEvents, btnAfter_endEvents] at h
        exact h.2
  · intro inp t ht
    simp [submitClick, ht]

theorem invoke_suspension_disabled_witness :
    ((Susp.invoke ["_Z3fooi"], true) ∈
        suspensions s0.demangleBtnDisabled (demangle engRaise "_Z3fooi" s0).2 ∧
      true = true) ∧
    (sBusy.demangleBtnDisabled = true ∧
      submitClick "_Z3fooi" sBusy = (sBusy, OpState.idle)) :=
  ⟨⟨by decide,
    (invoke_suspension_disabled engRaise "_Z3fooi" s0).1 ["_Z3fooi"] true (by decide)⟩,
   ⟨rfl, (invoke_suspension_disabled engRaise "_Z3fooi" s0).2 "_Z3fooi" sBusy rfl⟩⟩

/-- C1 counterexample: a schedule the claim forbids actually happens.
Starting idle, a second submit click dispatched while the first
operation awaits engine construction is accepted (the control is still
enabled there), and after both construction promises resolve the two
operations are simultaneously awaiting their batch invocations: a
second demangle operation, with its own engine construction and batch
invocation, overlaps the first. -/
theorem overlapping_demangle_cex :
    (submitClick "_ZNK6MyBaseD2Ev" (submitClick "_Z3fooi" s0).1).2 =
      OpState.awaitingConstruct "_ZNK6MyBaseD2Ev" ∧
    twoClickSchedule.2.1 = OpState.awaitingCallMain ["_Z3fooi"] ∧
    twoClickSchedule.2.2 = OpState.awaitingCallMain ["_ZNK6MyBaseD2Ev"] := by
  decide

end CxxfiltCom
